import Mathlib

/-!
Verification development for the generic tool execution core of
opencadc/library-tools (`library/tools/render.py`, `workspace.py`,
`catalog.py`, `resolve.py`, `runner.py`, `defaults.py`, and the parts of
`library/schema.py`, `library/default.py`, `library/tools/models.py` they
use).  Python values are embedded shallowly: strings as `String`,
`pathlib.Path` values as lists of components (`Path.resolve` is modelled
as the identity, i.e. paths are taken to be already absolute and
normalized, with no cwd or symlink model), dicts as association lists in
insertion order, exceptions as `Except String`, and the filesystem as an
explicit record of existing directories and files.
-/

deriving instance DecidableEq for Except

namespace LibraryTools

/-! ## Characters and substrings -/

/-- The character `{`, written via its code so it can be used in strings below. -/
def lbrace : Char := '\x7b'

/-- The character `}`. -/
def rbrace : Char := '\x7d'

/-- The character list for the marker `{{`. -/
def dlb : List Char := [lbrace, lbrace]

/-- The character list for the marker `}}`. -/
def drb : List Char := [rbrace, rbrace]

/-- Python `\s` for the ASCII range (the manifests at issue are ASCII). -/
def isPySpace (c : Char) : Bool :=
  c = ' ' || c = '\t' || c = '\n' || c = '\r' || c = '\x0b' || c = '\x0c'

/-- The regex class `[a-zA-Z0-9_.-]` of `TOOL_TOKEN_PATTERN` in
`library/schema.py`; also the tail class of the tool id pattern
`[a-zA-Z0-9][a-zA-Z0-9._-]*`. -/
def isTokenChar (c : Char) : Bool :=
  c.isAlphanum || c = '_' || c = '.' || c = '-'

/-- Python's substring test `needle in hay`. -/
def hasSub (needle : List Char) : List Char → Bool
  | [] => needle.isEmpty
  | c :: t => needle.isPrefixOf (c :: t) || hasSub needle t

/-! ## The token regex `{{\s*([a-zA-Z0-9_.-]+)\s*}}`

`TOOL_TOKEN_PATTERN` (library/schema.py line 28).  The whitespace class,
the name class and the brace characters are pairwise disjoint, so the
greedy left-to-right match below is exactly the regex match; `findall`
and `sub` both scan left to right without overlap, which `scanFuel`
reproduces. -/

/-- Attempt the regex match at the head of `l`: on success return the captured
group and the remainder of the input after the match. -/
def matchToken (l : List Char) : Option (String × List Char) :=
  match l with
  | c1 :: c2 :: rest =>
    if c1 = lbrace ∧ c2 = lbrace then
      let afterWs := rest.dropWhile isPySpace
      let name := afterWs.takeWhile isTokenChar
      let afterTok := afterWs.dropWhile isTokenChar
      let afterWs2 := afterTok.dropWhile isPySpace
      if name.isEmpty then none
      else
        match afterWs2 with
        | d1 :: d2 :: rest2 =>
          if d1 = rbrace ∧ d2 = rbrace then some (String.mk name, rest2) else none
        | _ => none
    else none
  | _ => none

/-- A piece of a scanned command token: a literal character, or one regex
match (its captured group). -/
inductive Piece where
  | lit (c : Char)
  | tok (name : String)
deriving DecidableEq

/-- Fuelled left-to-right regex scan (fuel keeps the recursion structural;
`scanPieces` supplies fuel equal to the input length, which is always
enough because a match consumes at least one character). -/
def scanFuel : Nat → List Char → List Piece
  | 0, _ => []
  | _ + 1, [] => []
  | fuel + 1, c :: cs =>
    match matchToken (c :: cs) with
    | some (n, rest) => Piece.tok n :: scanFuel fuel rest
    | none => Piece.lit c :: scanFuel fuel cs

/-- Scan a command token into literal characters and regex matches. -/
def scanPieces (l : List Char) : List Piece := scanFuel l.length l

/-- Embedding of `TOOL_TOKEN_PATTERN.findall(part)`: the captured groups in
order of occurrence. -/
def findTokens (l : List Char) : List String :=
  (scanPieces l).filterMap fun p =>
    match p with
    | Piece.tok n => some n
    | Piece.lit _ => none

/-- Embedding of `TOOL_TOKEN_PATTERN.sub(replacer, part)` where the replacer
may raise: replace every match by the replacer's value, propagating the
first error left to right. -/
def renderPieces (f : String → Except String String) : List Piece → Except String (List Char)
  | [] => Except.ok []
  | Piece.lit c :: ps =>
    match renderPieces f ps with
    | Except.error e => Except.error e
    | Except.ok r => Except.ok (c :: r)
  | Piece.tok n :: ps =>
    match f n with
    | Except.error e => Except.error e
    | Except.ok v =>
      match renderPieces f ps with
      | Except.error e => Except.error e
      | Except.ok r => Except.ok (v.data ++ r)

/-! ## Data model: tool inputs (library/schema.py `ToolInputs`) -/

/-- One named tool input: `source` is the literal `"default"` or a file
path, `destination` is the absolute container path it is mounted at. -/
structure ToolInputs where
  source : String
  destination : String
deriving DecidableEq

/-! ## Command rendering (library/tools/render.py) -/

/-- Python `token_name.split(".", maxsplit=1)[1]` for a string that contains
a dot: everything after the first dot. -/
def splitFirstDotTail (s : String) : String :=
  String.mk ((s.data.dropWhile (fun c => !(c = '.'))).tail)

/-- Embedding of `render._resolve_token`: `image.reference` yields the image
reference, `inputs.<key>` yields the named input's destination (failing if
the key is undeclared), anything else is unsupported. -/
def resolveToken (inputs : List (String × ToolInputs)) (imageReference : String)
    (tokenName : String) : Except String String :=
  if tokenName = "image.reference" then Except.ok imageReference
  else if ("inputs.".data).isPrefixOf tokenName.data then
    match inputs.lookup (splitFirstDotTail tokenName) with
    | none => Except.error ("Command references undefined input token: " ++ tokenName)
    | some ti => Except.ok ti.destination
  else Except.error ("Unsupported command token: " ++ tokenName)

/-- Embedding of the per-token body of `render.command`: a token holding a
brace marker but no regex match is malformed; after substitution a token
still holding a brace marker is malformed. -/
def renderPart (inputs : List (String × ToolInputs)) (imageReference : String)
    (part : String) : Except String String :=
  let cs := part.data
  let found := findTokens cs
  if (hasSub dlb cs || hasSub drb cs) && found.isEmpty then
    Except.error ("Malformed template token in tool command.")
  else
    match renderPieces (resolveToken inputs imageReference) (scanPieces cs) with
    | Except.error e => Except.error e
    | Except.ok rendered =>
      if hasSub dlb rendered || hasSub drb rendered then
        Except.error ("Malformed template token in tool command.")
      else Except.ok (String.mk rendered)

/-- Embedding of `render.command`: render each argv token in order,
propagating the first failure. -/
def renderCommand (command : List String) (inputs : List (String × ToolInputs))
    (imageReference : String) : Except String (List String) :=
  match command with
  | [] => Except.ok []
  | part :: rest =>
    match renderPart inputs imageReference part with
    | Except.error e => Except.error e
    | Except.ok r =>
      match renderCommand rest inputs imageReference with
      | Except.error e => Except.error e
      | Except.ok rs => Except.ok (r :: rs)

/-! ## Scanner lemmas -/

theorem matchToken_some_dlb {l : List Char} {pr : String × List Char}
    (h : matchToken l = some pr) : dlb.isPrefixOf l = true := by
  unfold matchToken at h
  match l with
  | [] => simp at h
  | [c] => simp at h
  | c1 :: c2 :: rest =>
    simp only at h
    split at h
    · rename_i hb
      simp [dlb, List.isPrefixOf, hb.1, hb.2]
    · simp at h

theorem hasSub_cons_false {needle : List Char} {c : Char} {t : List Char}
    (h : hasSub needle (c :: t) = false) :
    needle.isPrefixOf (c :: t) = false ∧ hasSub needle t = false := by
  unfold hasSub at h
  constructor
  · cases hp : needle.isPrefixOf (c :: t) <;> simp [hp] at h ⊢
  · cases hs : hasSub needle t <;> simp [hs] at h ⊢

theorem scanFuel_no_dlb (fuel : Nat) (l : List Char) (hf : l.length ≤ fuel)
    (h : hasSub dlb l = false) : scanFuel fuel l = l.map Piece.lit := by
  induction fuel generalizing l with
  | zero =>
    have : l = [] := List.length_eq_zero.mp (Nat.le_zero.mp hf)
    subst this
    rfl
  | succ n ih =>
    match l with
    | [] => rfl
    | c :: cs =>
      have hparts := hasSub_cons_false h
      have hm : matchToken (c :: cs) = none := by
        cases hmt : matchToken (c :: cs) with
        | none => rfl
        | some pr =>
          have := matchToken_some_dlb hmt
          rw [hparts.1] at this
          simp at this
      have hlen : cs.length ≤ n := by
        have := hf
        simp [List.length_cons] at this
        omega
      simp [scanFuel, hm, ih cs hlen hparts.2]

theorem scanPieces_no_dlb {l : List Char} (h : hasSub dlb l = false) :
    scanPieces l = l.map Piece.lit :=
  scanFuel_no_dlb l.length l (Nat.le_refl _) h

theorem renderPieces_all_lit (f : String → Except String String) (l : List Char) :
    renderPieces f (l.map Piece.lit) = Except.ok l := by
  induction l with
  | nil => rfl
  | cons c cs ih => simp [renderPieces, ih]

theorem findTokens_no_dlb {l : List Char} (h : hasSub dlb l = false) :
    findTokens l = [] := by
  unfold findTokens
  rw [scanPieces_no_dlb h]
  induction l with
  | nil => rfl
  | cons c cs ih => simp

theorem string_mk_data (s : String) : String.mk s.data = s := rfl

theorem splitFirstDotTail_inputs (key : String) :
    splitFirstDotTail ("inputs." ++ key) = key := by
  unfold splitFirstDotTail
  have h : ("inputs." ++ key).data
      = 'i' :: 'n' :: 'p' :: 'u' :: 't' :: 's' :: '.' :: key.data := rfl
  rw [h]
  simp [List.dropWhile]

theorem inputs_append_ne_imageref (key : String) :
    ("inputs." ++ key) ≠ "image.reference" := by
  intro h
  have h3 : 'i' :: 'n' :: 'p' :: 'u' :: 't' :: 's' :: '.' :: key.data
      = "image.reference".data := congrArg String.data h
  simp at h3

theorem inputs_isPrefixOf_append (key : String) :
    ("inputs.".data).isPrefixOf (("inputs." ++ key).data) = true := by
  have h : ("inputs." ++ key).data
      = 'i' :: 'n' :: 'p' :: 'u' :: 't' :: 's' :: '.' :: key.data := rfl
  rw [h]
  simp [List.isPrefixOf]

/-- C5: for every command token, render substitutes each `inputs.<key>`
placeholder by the declared input's destination and each `image.reference`
placeholder by the supplied image reference; it fails when `<key>` is not a
declared input, and fails as unsupported for any other placeholder name.
Concretely, rendering `["{{inputs.trivy}}"]` against an input `trivy` with
destination `/config/trivy.yaml` yields `["/config/trivy.yaml"]`, while
`["{{inputs.missing}}"]` and `["{{outputs}}"]` both fail. -/
theorem render_token_semantics :
    (∀ (inputs : List (String × ToolInputs)) (ref : String),
      resolveToken inputs ref ("image.reference") = Except.ok ref)
    ∧ (∀ (inputs : List (String × ToolInputs)) (ref key : String) (ti : ToolInputs),
      inputs.lookup key = some ti →
      resolveToken inputs ref ("inputs." ++ key) = Except.ok ti.destination)
    ∧ (∀ (inputs : List (String × ToolInputs)) (ref key : String),
      inputs.lookup key = none →
      resolveToken inputs ref ("inputs." ++ key) =
        Except.error ("Command references undefined input token: " ++ ("inputs." ++ key)))
    ∧ (∀ (inputs : List (String × ToolInputs)) (ref name : String),
      name ≠ "image.reference" →
      ("inputs.".data).isPrefixOf name.data = false →
      resolveToken inputs ref name = Except.error ("Unsupported command token: " ++ name))
    ∧ renderCommand ["\x7b\x7binputs.trivy\x7d\x7d"]
        [("trivy", ⟨"default", "/config/trivy.yaml"⟩)] ("ref")
      = Except.ok ["/config/trivy.yaml"]
    ∧ renderCommand ["\x7b\x7binputs.missing\x7d\x7d"]
        [("trivy", ⟨"default", "/config/trivy.yaml"⟩)] ("ref")
      = Except.error ("Command references undefined input token: inputs.missing")
    ∧ renderCommand ["\x7b\x7boutputs\x7d\x7d"] [] ("ref")
      = Except.error ("Unsupported command token: outputs") := by
  refine ⟨fun inputs ref => rfl, ?_, ?_, ?_, rfl, rfl, rfl⟩
  · intro inputs ref key ti hk
    unfold resolveToken
    rw [if_neg (inputs_append_ne_imageref key), if_pos (inputs_isPrefixOf_append key),
      splitFirstDotTail_inputs, hk]
  · intro inputs ref key hk
    unfold resolveToken
    rw [if_neg (inputs_append_ne_imageref key), if_pos (inputs_isPrefixOf_append key),
      splitFirstDotTail_inputs, hk]
  · intro inputs ref name hne hpre
    unfold resolveToken
    rw [if_neg hne, if_neg (by simp [hpre])]

/-- Closed instance of the C5 theorem at the declared input `trivy`. -/
theorem render_token_semantics_witness :
    resolveToken [("trivy", ⟨"default", "/config/trivy.yaml"⟩)] ("ref")
      ("inputs." ++ "trivy")
    = Except.ok ("/config/trivy.yaml") :=
  render_token_semantics.2.1 [("trivy", ⟨"default", "/config/trivy.yaml"⟩)] ("ref")
    ("trivy") ⟨"default", "/config/trivy.yaml"⟩ rfl

/-- C6 counterexample: the argv token consisting of the two characters `}}`
contains no `{{` substring, yet rendering it fails (the malformed-token
guard in `render.command` also fires on a bare `}}` marker), so the claim
as stated is false at this input. -/
theorem render_rbrace_counterexample :
    hasSub dlb (String.mk drb).data = false
    ∧ renderCommand [String.mk drb] [] ("ref")
      = Except.error ("Malformed template token in tool command.") :=
  ⟨rfl, rfl⟩

/-- C6 (amended): for every command list in which no token contains the
substring `{{` or the substring `}}`, and for every inputs map and image
reference, render succeeds and returns the command unchanged. -/
theorem render_no_marker_identity :
    ∀ (command : List String) (inputs : List (String × ToolInputs)) (ref : String),
    (∀ part ∈ command, hasSub dlb part.data = false ∧ hasSub drb part.data = false) →
    renderCommand command inputs ref = Except.ok command := by
  intro command inputs ref h
  induction command with
  | nil => rfl
  | cons part rest ih =>
    have hpart := h part (by simp)
    have hrest := ih (fun p hp => h p (by simp [hp]))
    have hrp : renderPart inputs ref part = Except.ok part := by
      unfold renderPart
      rw [if_neg (by simp [hpart.1, hpart.2])]
      rw [scanPieces_no_dlb hpart.1, renderPieces_all_lit]
      simp [hpart.1, hpart.2, string_mk_data]
    unfold renderCommand
    rw [hrp, hrest]

/-- Closed instance of the amended C6 theorem on a marker-free command. -/
theorem render_no_marker_identity_witness :
    renderCommand ["trivy", "image"] [] ("ref") = Except.ok ["trivy", "image"] :=
  render_no_marker_identity ["trivy", "image"] [] ("ref") (by decide)

/-! ## Paths and the filesystem

A `pathlib.Path` is embedded as its list of components below the root;
`Path.resolve` is modelled as the identity (paths are already absolute and
normalized; the model has no cwd and no symlinks).  The filesystem records
which directories and which regular files exist. -/

/-- A POSIX path as its component list (absolute, normalized). -/
abbrev PyPath := List String

/-- Render a path the way `str(path)` does for an absolute path. -/
def pathStr (p : PyPath) : String :=
  p.foldl (fun acc c => acc ++ "/" ++ c) ""

/-- Parse a path string into components, as `Path(s)` does (consecutive
separators and the leading separator yield no components). -/
def strToPath (s : String) : PyPath :=
  (s.splitOn ("/")).filter (fun c => !(c = ""))

/-- Python `s.startswith(pre)`. -/
def strStartsWith (s pre : String) : Bool := pre.data.isPrefixOf s.data

/-- Whether a path string is absolute (`Path.is_absolute` on POSIX). -/
def strIsAbsolute (s : String) : Bool := strStartsWith s ("/")

/-- The filesystem state: the sets of existing directories and files. -/
structure FS where
  dirs : List PyPath
  files : List PyPath
deriving DecidableEq

/-- All non-empty prefixes of a path: the directory and its ancestors. -/
def prefixesOf (p : PyPath) : List PyPath :=
  (List.range p.length).map (fun i => p.take (i + 1))

/-- Embedding of `Path.mkdir(parents=True, exist_ok=existOk)`: missing
ancestors are created silently; the call errors only when the target
already exists and `exist_ok` is false. -/
def mkdirParents (fs : FS) (p : PyPath) (existOk : Bool) : Except String FS :=
  if p ∈ fs.dirs then
    if existOk then Except.ok fs
    else Except.error ("FileExistsError: " ++ pathStr p)
  else Except.ok { fs with dirs := prefixesOf p ++ fs.dirs }

/-! ## Run timestamps (library/tools/workspace.py)

`datetime` values are embedded as civil fields plus an optional fixed UTC
offset in minutes (`tzinfo=None` is a naive datetime).  `astimezone` is
modelled through the standard civil-from-days / days-from-civil epoch
conversion, which is exact for the proleptic Gregorian calendar that
`datetime` uses. -/

/-- A Python `datetime`: civil fields and an optional UTC offset. -/
structure PyDateTime where
  year : Int
  month : Int
  day : Int
  hour : Int
  minute : Int
  second : Int
  tzOffsetMinutes : Option Int
deriving DecidableEq

/-- Days since 1970-01-01 of a civil date (proleptic Gregorian).  All
divisions act on non-negative operands thanks to the era shift, so the
rounding convention is immaterial. -/
def daysFromCivil (y m d : Int) : Int :=
  let y2 := if m ≤ 2 then y - 1 else y
  let era := (if 0 ≤ y2 then y2 else y2 - 399) / 400
  let yoe := y2 - era * 400
  let mp := if 2 < m then m - 3 else m + 9
  let doy := (153 * mp + 2) / 5 + d - 1
  let doe := yoe * 365 + yoe / 4 - yoe / 100 + doy
  era * 146097 + doe - 719468

/-- Civil date of a count of days since 1970-01-01 (inverse of
`daysFromCivil`). -/
def civilFromDays (z0 : Int) : Int × Int × Int :=
  let z := z0 + 719468
  let era := (if 0 ≤ z then z else z - 146096) / 146097
  let doe := z - era * 146097
  let yoe := (doe - doe / 1460 + doe / 36524 - doe / 146096) / 365
  let y := yoe + era * 400
  let doy := doe - (365 * yoe + yoe / 4 - yoe / 100)
  let mp := (5 * doy + 2) / 153
  let d := doy - (153 * mp + 2) / 5 + 1
  let m := if mp < 10 then mp + 3 else mp - 9
  (if m ≤ 2 then y + 1 else y, m, d)

/-- Zero-padded decimal rendering of a non-negative field (`strftime`
padding). -/
def padNum (width : Nat) (n : Int) : String :=
  let s := toString n.toNat
  String.mk (List.replicate (width - s.length) '0') ++ s

/-- Civil fields formatted with `RUN_TIME_FORMAT = "%Y%m%dT%H%M%SZ"`. -/
def formatFields (y mo d h mi s : Int) : String :=
  padNum 4 y ++ padNum 2 mo ++ padNum 2 d ++ "T"
    ++ padNum 2 h ++ padNum 2 mi ++ padNum 2 s ++ "Z"

/-- Embedding of `workspace.format`: a naive datetime is taken to already be
UTC (`replace(tzinfo=utc)` keeps the fields); an aware one is converted to
UTC (`astimezone(timezone.utc)`), then formatted as `YYYYMMDDTHHMMSSZ`. -/
def wsFormat (t : PyDateTime) : String :=
  match t.tzOffsetMinutes with
  | none => formatFields t.year t.month t.day t.hour t.minute t.second
  | some off =>
    let secs := daysFromCivil t.year t.month t.day * 86400
      + t.hour * 3600 + t.minute * 60 + t.second - off * 60
    let days := secs.ediv 86400
    let sod := secs.emod 86400
    let ymd := civilFromDays days
    formatFields ymd.1 ymd.2.1 ymd.2.2
      (sod.ediv 3600) ((sod.emod 3600).ediv 60) (sod.emod 60)

/-- The fixed workspace subdirectory `OUTPUT_ROOT_DIRNAME`. -/
def OUTPUT_ROOT_DIRNAME : String := ".library-tool-outputs"

/-- Embedding of `workspace.create`: build
`root / OUTPUT_ROOT_DIRNAME / tool_id / format(run_time)`, create it with
`mkdir(parents=True, exist_ok=True)`, and return it. -/
def wsCreate (fs : FS) (root : PyPath) (toolId : String) (t : PyDateTime) :
    Except String (FS × PyPath) :=
  let runDir := root ++ [OUTPUT_ROOT_DIRNAME, toolId, wsFormat t]
  match mkdirParents fs runDir true with
  | Except.error e => Except.error e
  | Except.ok fs1 => Except.ok (fs1, runDir)

theorem mem_prefixesOf_self {p : PyPath} (h : p ≠ []) : p ∈ prefixesOf p := by
  unfold prefixesOf
  have hl : 0 < p.length := List.length_pos.mpr h
  refine List.mem_map.mpr ⟨p.length - 1, ?_, ?_⟩
  · exact List.mem_range.mpr (by omega)
  · have : p.length - 1 + 1 = p.length := by omega
    rw [this, List.take_length]

/-- C7: for every root, tool id and timestamp, `create` returns exactly
`root/.library-tool-outputs/toolId/<UTC-normalized YYYYMMDDTHHMMSSZ>`,
the directory exists afterwards, and a second call with identical
arguments succeeds and returns the same path; for tool id
`default-scanner` at 2026-02-18T20:00:00+00:00 the timestamp component is
`20260218T200000Z`. -/
theorem workspace_create_deterministic :
    (∀ (fs : FS) (root : PyPath) (toolId : String) (t : PyDateTime),
      ∃ fs1 : FS,
        wsCreate fs root toolId t
          = Except.ok (fs1, root ++ [OUTPUT_ROOT_DIRNAME, toolId, wsFormat t])
        ∧ (root ++ [OUTPUT_ROOT_DIRNAME, toolId, wsFormat t]) ∈ fs1.dirs
        ∧ wsCreate fs1 root toolId t
          = Except.ok (fs1, root ++ [OUTPUT_ROOT_DIRNAME, toolId, wsFormat t]))
    ∧ wsFormat ⟨2026, 2, 18, 20, 0, 0, some 0⟩ = "20260218T200000Z" := by
  constructor
  · intro fs root toolId t
    set runDir := root ++ [OUTPUT_ROOT_DIRNAME, toolId, wsFormat t] with hrd
    have hne : runDir ≠ [] := by simp [hrd]
    by_cases hmem : runDir ∈ fs.dirs
    · refine ⟨fs, ?_, hmem, ?_⟩ <;> simp [wsCreate, mkdirParents, hmem, hrd]
    · refine ⟨{ fs with dirs := prefixesOf runDir ++ fs.dirs }, ?_, ?_, ?_⟩
      · simp [wsCreate, mkdirParents, hmem, hrd]
      · exact List.mem_append.mpr (Or.inl (mem_prefixesOf_self hne))
      · have hmem2 : runDir ∈ prefixesOf runDir ++ fs.dirs :=
          List.mem_append.mpr (Or.inl (mem_prefixesOf_self hne))
        simp [wsCreate, mkdirParents, hmem2, hrd]
  · decide

/-! ## Data model: tools and configuration (library/schema.py) -/

/-- A tool definition (`schema.Tool`): `env` and `inputs` are dicts embedded
as association lists in insertion order; `outputs` is the fixed literal
`"/outputs/"` in every validated tool. -/
structure Tool where
  id : String
  parser : String
  image : String
  command : List String
  env : List (String × String)
  inputs : List (String × ToolInputs)
  socket : Bool
  outputs : String
deriving DecidableEq

/-- Tooling configuration (`schema.Config`): `policy` and `conflicts` are
the literal enums, kept as strings. -/
structure Config where
  policy : String
  conflicts : String
  tools : List Tool
  cli : List (String × String)
deriving DecidableEq

/-! ## Catalog resolution (library/tools/catalog.py) -/

/-- The `source` discriminator of a resolved catalog. -/
inductive CatalogSource where
  | default
  | manifest
deriving DecidableEq

/-- Effective tools/cli catalog (`catalog.ResolvedCatalog`). -/
structure ResolvedCatalog where
  tools : List Tool
  cli : List (String × String)
  source : CatalogSource
deriving DecidableEq

/-- Pydantic `model_copy(deep=True)` on a tool input: a structural rebuild. -/
def modelCopyDeepInputs (ti : ToolInputs) : ToolInputs :=
  ⟨ti.source, ti.destination⟩

/-- Pydantic `model_copy(deep=True)` on a tool: every field, including the
nested `env`/`inputs` containers, is rebuilt structurally. -/
def modelCopyDeep (t : Tool) : Tool :=
  ⟨t.id, t.parser, t.image, t.command.map (fun s => s),
    t.env.map (fun p => (p.1, p.2)),
    t.inputs.map (fun p => (p.1, modelCopyDeepInputs p.2)),
    t.socket, t.outputs⟩

/-- Python `dict(d)`: a fresh dict holding the same entries. -/
def pyDictCopy (d : List (String × String)) : List (String × String) :=
  d.map (fun p => (p.1, p.2))

/-- The names bound at module level in `library/default.py` (its imports and
`MANIFEST_FILENAME`, `HadolintTool`, `HadolintCli`).  `DefaultTools` and
`DefaultCli` are not among them. -/
def libraryDefaultModuleNames : List String :=
  ["annotations", "Tool", "ToolInputs", "MANIFEST_FILENAME", "HadolintTool", "HadolintCli"]

/-- The single default tool that `library/default.py` does define
(`HadolintTool`, lines 9-27; its `env` is the pydantic default `{}`). -/
def HadolintTool : Tool :=
  { id := "default-linter"
    parser := "hadolint"
    image := "docker.io/hadolint/hadolint:latest"
    command := ["hadolint", "--config", "\x7b\x7binputs.hadolint\x7d\x7d",
      "--format", "json", "\x7b\x7binputs.dockerfile\x7d\x7d"]
    env := []
    inputs := [("hadolint", ⟨"default", "/inputs/.hadolint.yaml"⟩),
      ("dockerfile", ⟨"default", "/inputs/Dockerfile"⟩)]
    socket := false
    outputs := "/outputs/" }

/-- The CLI map that `library/default.py` does define (`HadolintCli`). -/
def HadolintCli : List (String × String) := [("lint", "default-linter")]

/-- Embedding of `catalog._default_tools`, which evaluates
`default.DefaultTools`: `library/default.py` binds no such name, so the
attribute access raises `AttributeError` (the unreachable `ok` branch is
the would-be success of the lookup). -/
def catalogDefaultTools : Except String (List Tool) :=
  if ("DefaultTools" ∈ libraryDefaultModuleNames) then Except.ok []
  else Except.error
    ("AttributeError: module \x27library.default\x27 has no attribute \x27DefaultTools\x27")

/-- Embedding of the `default.DefaultCli` access in `catalog.resolve`; the
name is likewise unbound in `library/default.py`. -/
def catalogDefaultCli : Except String (List (String × String)) :=
  if ("DefaultCli" ∈ libraryDefaultModuleNames) then Except.ok []
  else Except.error
    ("AttributeError: module \x27library.default\x27 has no attribute \x27DefaultCli\x27")

/-- Embedding of `catalog.resolve`: full manifest override when both parts
are present (deep-copied), fail-fast on a partial override, otherwise the
packaged defaults (whose attribute accesses raise, see above). -/
def catalogResolve (config : Config) : Except String ResolvedCatalog :=
  let hasTools := !config.tools.isEmpty
  let hasCli := !config.cli.isEmpty
  if hasTools && hasCli then
    Except.ok ⟨config.tools.map modelCopyDeep, pyDictCopy config.cli, CatalogSource.manifest⟩
  else if hasTools != hasCli then
    Except.error ("Manifest override requires both config.tools and config.cli.")
  else
    match catalogDefaultTools with
    | Except.error e => Except.error e
    | Except.ok tools =>
      match catalogDefaultCli with
      | Except.error e => Except.error e
      | Except.ok cli => Except.ok ⟨tools, cli, CatalogSource.default⟩

theorem modelCopyDeepInputs_eq (ti : ToolInputs) : modelCopyDeepInputs ti = ti := rfl

theorem modelCopyDeep_eq (t : Tool) : modelCopyDeep t = t := by
  unfold modelCopyDeep
  cases t with
  | mk id parser image command env inputs socket outputs =>
    simp [modelCopyDeepInputs]

theorem pyDictCopy_eq (d : List (String × String)) : pyDictCopy d = d := by
  unfold pyDictCopy
  simp

/-- A needle string occurs somewhere in a haystack string (the error-message
"mentions" relation). -/
def mentions (needle hay : String) : Prop :=
  ∃ pre post : List Char, hay.data = pre ++ needle.data ++ post

/-! ## Object-identity model for catalog deep copies

Python objects live on a heap of addresses; `model_copy(deep=True)` and
`dict(...)` allocate fresh objects.  To state the no-aliasing half of the
manifest-override contract we embed `catalog.resolve`'s manifest branch a
second time at this level: a tool is one heap node carrying its (immutable
at this granularity) value, the cli dict is one node, and mutation is a
`write` at an address. -/

/-- A heap object: a tool model or the cli dict. -/
inductive PyObj where
  | toolObj (t : Tool)
  | cliDict (d : List (String × String))
deriving DecidableEq

/-- A heap: an allocation counter and the store. -/
structure Heap where
  next : Nat
  mem : List (Nat × PyObj)
deriving DecidableEq

/-- Read the object at an address. -/
def Heap.lookup (h : Heap) (a : Nat) : Option PyObj := h.mem.lookup a

/-- Allocate a fresh object, returning the new heap and the fresh address. -/
def Heap.alloc (h : Heap) (o : PyObj) : Heap × Nat :=
  ({ next := h.next + 1, mem := (h.next, o) :: h.mem }, h.next)

/-- Mutate the object at an address (a caller mutating a returned object). -/
def Heap.write (h : Heap) (a : Nat) (o : PyObj) : Heap :=
  { h with mem := h.mem.map (fun p => if p.1 = a then (a, o) else p) }

/-- Whether the address holds a tool object. -/
def Heap.isToolAt (h : Heap) (a : Nat) : Bool :=
  match h.lookup a with
  | some (PyObj.toolObj _) => true
  | _ => false

/-- Whether the address holds the cli dict object. -/
def Heap.isCliAt (h : Heap) (a : Nat) : Bool :=
  match h.lookup a with
  | some (PyObj.cliDict _) => true
  | _ => false

/-- The manifest `Config`'s references into the heap: the addresses of its
tool objects and of its cli dict. -/
structure ConfigRefs where
  toolAddrs : List Nat
  cliAddr : Nat
deriving DecidableEq

/-- Heap well-formedness for a config: every reference is an allocated
address holding an object of the right kind. -/
def heapWf (h : Heap) (r : ConfigRefs) : Bool :=
  r.toolAddrs.all (fun a => decide (a < h.next) && h.isToolAt a)
    && (decide (r.cliAddr < h.next) && h.isCliAt r.cliAddr)

/-- Heap-level `[tool.model_copy(deep=True) for tool in config.tools]`:
read each tool object and allocate a fresh node with the same value. -/
def copyToolAddrs (h : Heap) : List Nat → Heap × List Nat
  | [] => (h, [])
  | a :: as =>
    match h.lookup a with
    | some o =>
      let al := h.alloc o
      let rest := copyToolAddrs al.1 as
      (rest.1, al.2 :: rest.2)
    | none =>
      copyToolAddrs h as

/-- Heap-level manifest branch of `catalog.resolve`: deep-copy the tool
objects, then allocate the fresh `dict(config.cli)`.  Returns the heap and
the addresses handed back to the caller. -/
def catalogResolveHeap (h : Heap) (r : ConfigRefs) : Heap × (List Nat × Nat) :=
  let ct := copyToolAddrs h r.toolAddrs
  let cliVal :=
    match ct.1.lookup r.cliAddr with
    | some (PyObj.cliDict d) => d
    | _ => []
  let ac := ct.1.alloc (PyObj.cliDict cliVal)
  (ac.1, (ct.2, ac.2))

theorem heap_alloc_lookup_self (h : Heap) (o : PyObj) :
    (h.alloc o).1.lookup h.next = some o := by
  simp [Heap.alloc, Heap.lookup, List.lookup]

theorem heap_alloc_lookup_other (h : Heap) (o : PyObj) {b : Nat} (hb : b ≠ h.next) :
    (h.alloc o).1.lookup b = h.lookup b := by
  unfold Heap.alloc Heap.lookup
  simp only [List.lookup]
  rw [show (b == h.next) = false from by simpa using hb]

theorem heap_write_other (h : Heap) (a b : Nat) (o : PyObj) (hne : b ≠ a) :
    (h.write a o).lookup b = h.lookup b := by
  unfold Heap.write Heap.lookup
  induction h.mem with
  | nil => rfl
  | cons p t ih =>
    obtain ⟨k, v⟩ := p
    by_cases hk : k = a
    · subst hk
      have hbk : (b == k) = false := by simpa using hne
      rw [List.map_cons,
        show (if ((k, v) : Nat × PyObj).1 = k then (k, o) else (k, v)) = (k, o) from
          if_pos rfl,
        List.lookup_cons, List.lookup_cons]
      simp only [hbk]
      exact ih
    · have hf : ((k, v) : Nat × PyObj).1 ≠ a := hk
      simp only [List.map_cons, if_neg hf, List.lookup_cons] at ih ⊢
      cases hkb : b == k with
      | true => rfl
      | false => exact ih

theorem copyToolAddrs_next_le (h : Heap) (as : List Nat) :
    h.next ≤ (copyToolAddrs h as).1.next := by
  induction as generalizing h with
  | nil => exact Nat.le_refl _
  | cons a t ih =>
    unfold copyToolAddrs
    cases hl : h.lookup a with
    | none => simpa [hl] using ih h
    | some o =>
      have := ih (h.alloc o).1
      simp only [hl]
      have hstep : h.next ≤ (h.alloc o).1.next := by simp [Heap.alloc]
      exact Nat.le_trans hstep this

theorem copyToolAddrs_out_bounds (h : Heap) (as : List Nat) :
    ∀ a2 ∈ (copyToolAddrs h as).2,
      h.next ≤ a2 ∧ a2 < (copyToolAddrs h as).1.next := by
  induction as generalizing h with
  | nil => intro a2 ha2; simp [copyToolAddrs] at ha2
  | cons a t ih =>
    intro a2 ha2
    unfold copyToolAddrs at ha2 ⊢
    cases hl : h.lookup a with
    | none =>
      simp only [hl] at ha2 ⊢
      have := ih h a2 ha2
      exact this
    | some o =>
      simp only [hl] at ha2 ⊢
      rcases List.mem_cons.mp ha2 with he | hm
      · subst he
        refine ⟨Nat.le_refl _, ?_⟩
        have h1 : (h.alloc o).2 < (h.alloc o).1.next := by simp [Heap.alloc]
        exact Nat.lt_of_lt_of_le h1 (copyToolAddrs_next_le _ t)
      · have := ih (h.alloc o).1 a2 hm
        refine ⟨?_, this.2⟩
        have hstep : h.next ≤ (h.alloc o).1.next := by simp [Heap.alloc]
        exact Nat.le_trans (Nat.le_of_lt (Nat.lt_of_lt_of_le (by simp [Heap.alloc]) this.1)) (Nat.le_refl _)

theorem copyToolAddrs_preserves (h : Heap) (as : List Nat) {b : Nat}
    (hb : b < h.next) : (copyToolAddrs h as).1.lookup b = h.lookup b := by
  induction as generalizing h with
  | nil => rfl
  | cons a t ih =>
    unfold copyToolAddrs
    cases hl : h.lookup a with
    | none => exact ih h hb
    | some o =>
      simp only [hl]
      have hb2 : b < (h.alloc o).1.next := by
        simp [Heap.alloc]; omega
      have := ih (h.alloc o).1 hb2
      rw [this, heap_alloc_lookup_other h o (by omega)]

theorem copyToolAddrs_values (h : Heap) (as : List Nat)
    (hwf : ∀ a ∈ as, a < h.next ∧ (h.lookup a).isSome = true) :
    ∀ pr ∈ as.zip (copyToolAddrs h as).2,
      (copyToolAddrs h as).1.lookup pr.2 = h.lookup pr.1 := by
  induction as generalizing h with
  | nil => intro pr hpr; simp [copyToolAddrs] at hpr
  | cons a t ih =>
    intro pr hpr
    have ha := hwf a (by simp)
    unfold copyToolAddrs at hpr ⊢
    cases hl : h.lookup a with
    | none => rw [hl] at ha; simp at ha
    | some o =>
      simp only [hl] at hpr ⊢
      rcases List.mem_cons.mp (by simpa [List.zip] using hpr) with he | hm
      · rw [he]
        simp only []
        have hself : (h.alloc o).1.lookup (h.alloc o).2 = some o :=
          heap_alloc_lookup_self h o
        have hlt : (h.alloc o).2 < (h.alloc o).1.next := by simp [Heap.alloc]
        rw [copyToolAddrs_preserves (h.alloc o).1 t hlt, hself, hl]
      · have hwf2 : ∀ x ∈ t, x < (h.alloc o).1.next ∧ ((h.alloc o).1.lookup x).isSome = true := by
          intro x hx
          have hxw := hwf x (by simp [hx])
          have hxlt : x < (h.alloc o).1.next := by simp [Heap.alloc]; omega
          refine ⟨hxlt, ?_⟩
          rw [heap_alloc_lookup_other h o (by omega)]
          exact hxw.2
        have hpr1 : pr.1 ∈ t := (List.of_mem_zip hm).1
        have hlt1 : pr.1 < h.next := (hwf pr.1 (by simp [hpr1])).1
        have := ih (h.alloc o).1 hwf2 pr hm
        rw [this, heap_alloc_lookup_other h o (by omega)]

/-- C2 evaluation: `catalog.resolve` on a `Config` with empty `tools` and
empty `cli` reaches the packaged-defaults branch, whose very first step
`default.DefaultTools` raises `AttributeError`, because `library/default.py`
binds neither `DefaultTools` nor `DefaultCli`; the claimed
`source="default"` result is never produced. -/
theorem catalog_resolve_empty_attribute_error :
    catalogResolve ⟨"default", "warn", [], []⟩
      = Except.error
        ("AttributeError: module \x27library.default\x27 has no attribute \x27DefaultTools\x27")
    ∧ ("DefaultTools" ∈ libraryDefaultModuleNames) = False
    ∧ ("DefaultCli" ∈ libraryDefaultModuleNames) = False := by
  refine ⟨rfl, ?_, ?_⟩ <;> simp [libraryDefaultModuleNames]

/-- C8: for every `Config` in which exactly one of `tools` / `cli` is
non-empty, `catalog.resolve` fails with the configuration error naming
both required fields, `config.tools` and `config.cli`. -/
theorem catalog_resolve_partial_override_error :
    ∀ config : Config, (config.tools.isEmpty != config.cli.isEmpty) = true →
      catalogResolve config
        = Except.error ("Manifest override requires both config.tools and config.cli.")
      ∧ mentions ("config.tools")
          ("Manifest override requires both config.tools and config.cli.")
      ∧ mentions ("config.cli")
          ("Manifest override requires both config.tools and config.cli.") := by
  intro config h
  refine ⟨?_, ⟨"Manifest override requires both ".data, " and config.cli.".data, rfl⟩,
    ⟨"Manifest override requires both config.tools and ".data, ".".data, rfl⟩⟩
  cases ht : config.tools.isEmpty <;> cases hc : config.cli.isEmpty <;>
    rw [ht, hc] at h <;> simp at h <;> simp [catalogResolve, ht, hc]

/-- Closed instance of the C8 theorem: a config with a tool but no cli map. -/
theorem catalog_resolve_partial_override_error_witness :
    catalogResolve ⟨"default", "warn", [HadolintTool], []⟩
      = Except.error ("Manifest override requires both config.tools and config.cli.")
    ∧ mentions ("config.tools")
        ("Manifest override requires both config.tools and config.cli.")
    ∧ mentions ("config.cli")
        ("Manifest override requires both config.tools and config.cli.") :=
  catalog_resolve_partial_override_error ⟨"default", "warn", [HadolintTool], []⟩ rfl

/-- C3: for every `Config` with non-empty `tools` and non-empty `cli`,
`catalog.resolve` returns `source="manifest"` with content equal to the
config's own (deep-copy equality); and at the object-identity level every
address handed back is fresh, carries the same value as the original, and
writing through any returned address leaves the objects at the config's
own addresses untouched (no aliasing). -/
theorem catalog_resolve_manifest_no_alias :
    (∀ config : Config, config.tools ≠ [] → config.cli ≠ [] →
      catalogResolve config
        = Except.ok ⟨config.tools, config.cli, CatalogSource.manifest⟩)
    ∧ (∀ (h : Heap) (r : ConfigRefs), heapWf h r = true →
      (∀ pr ∈ r.toolAddrs.zip (catalogResolveHeap h r).2.1,
        (catalogResolveHeap h r).1.lookup pr.2 = h.lookup pr.1)
      ∧ (catalogResolveHeap h r).1.lookup (catalogResolveHeap h r).2.2 = h.lookup r.cliAddr
      ∧ (∀ b, (b ∈ (catalogResolveHeap h r).2.1 ∨ b = (catalogResolveHeap h r).2.2) →
          ∀ a, (a ∈ r.toolAddrs ∨ a = r.cliAddr) →
          b ≠ a ∧ ∀ o : PyObj,
            ((catalogResolveHeap h r).1.write b o).lookup a
              = (catalogResolveHeap h r).1.lookup a)) := by
  constructor
  · intro config htools hcli
    have ht : config.tools.isEmpty = false := by
      cases hx : config.tools <;> simp [hx] at htools ⊢
    have hc : config.cli.isEmpty = false := by
      cases hx : config.cli <;> simp [hx] at hcli ⊢
    unfold catalogResolve
    rw [ht, hc]
    simp only [Bool.not_false, Bool.and_self, if_pos rfl]
    rw [pyDictCopy_eq]
    have : config.tools.map modelCopyDeep = config.tools := by
      calc config.tools.map modelCopyDeep
          = config.tools.map id := List.map_congr_left (fun t _ => modelCopyDeep_eq t)
        _ = config.tools := List.map_id _
    rw [this]
    simp
  · intro h r hwf
    have hw1 : ∀ a ∈ r.toolAddrs, a < h.next ∧ (h.lookup a).isSome = true := by
      intro a ha
      have := (List.all_eq_true.mp (by
        have := hwf
        unfold heapWf at this
        exact (Bool.and_eq_true_iff.mp this).1)) a ha
      have h2 := Bool.and_eq_true_iff.mp this
      refine ⟨by simpa using h2.1, ?_⟩
      unfold Heap.isToolAt at h2
      cases hl : h.lookup a with
      | none => rw [hl] at h2; simp at h2
      | some o => simp
    have hw2 : r.cliAddr < h.next := by
      have := hwf
      unfold heapWf at this
      have h2 := (Bool.and_eq_true_iff.mp this).2
      simpa using (Bool.and_eq_true_iff.mp h2).1
    set ct := copyToolAddrs h r.toolAddrs with hct
    have houtb := copyToolAddrs_out_bounds h r.toolAddrs
    have hnextle := copyToolAddrs_next_le h r.toolAddrs
    have hvals := copyToolAddrs_values h r.toolAddrs hw1
    rw [← hct] at houtb hnextle hvals
    refine ⟨?_, ?_, ?_⟩
    · intro pr hpr
      have hv := hvals pr hpr
      have hb := houtb pr.2 (List.of_mem_zip hpr).2
      show (ct.1.alloc _).1.lookup pr.2 = h.lookup pr.1
      rw [heap_alloc_lookup_other ct.1 _ (by omega), hv]
    · show (ct.1.alloc _).1.lookup ct.1.next = h.lookup r.cliAddr
      rw [heap_alloc_lookup_self]
      have hpres : ct.1.lookup r.cliAddr = h.lookup r.cliAddr :=
        copyToolAddrs_preserves h r.toolAddrs hw2
      have hcli : Heap.isCliAt h r.cliAddr = true := by
        have := hwf
        unfold heapWf at this
        have h2 := (Bool.and_eq_true_iff.mp this).2
        exact (Bool.and_eq_true_iff.mp h2).2
      unfold Heap.isCliAt at hcli
      cases hl : h.lookup r.cliAddr with
      | none => rw [hl] at hcli; simp at hcli
      | some o =>
        cases o with
        | toolObj t => rw [hl] at hcli; simp at hcli
        | cliDict d => simp only [hct, hl, hpres]
    · intro b hb a ha
      have hblow : h.next ≤ b := by
        rcases hb with hbm | hbe
        · exact (houtb b hbm).1
        · have : b = ct.1.next := hbe
          omega
      have halt : a < h.next := by
        rcases ha with ham | hae
        · exact (hw1 a ham).1
        · omega
      refine ⟨by omega, fun o => heap_write_other _ b a o (by omega)⟩

/-- Closed instance of the C3 theorem: a one-tool manifest override, both at
the value level and at the object-identity level. -/
theorem catalog_resolve_manifest_no_alias_witness :
    catalogResolve ⟨"default", "warn", [HadolintTool], [("lint", "default-linter")]⟩
      = Except.ok ⟨[HadolintTool], [("lint", "default-linter")], CatalogSource.manifest⟩
    ∧ (catalogResolveHeap
        ⟨2, [(0, PyObj.toolObj HadolintTool), (1, PyObj.cliDict [("lint", "default-linter")])]⟩
        ⟨[0], 1⟩).2.2 ≠ 1 :=
  ⟨(catalog_resolve_manifest_no_alias.1
      ⟨"default", "warn", [HadolintTool], [("lint", "default-linter")]⟩
      (by simp) (by simp)),
    (((catalog_resolve_manifest_no_alias.2
      ⟨2, [(0, PyObj.toolObj HadolintTool), (1, PyObj.cliDict [("lint", "default-linter")])]⟩
      ⟨[0], 1⟩ (by decide)).2.2
        (catalogResolveHeap _ _).2.2 (Or.inr rfl) 1 (Or.inr rfl)).1)⟩

/-! ## Manifest validation (library/schema.py `Tool` / `Config` validators)

Pydantic validates nested models first (so a `Tool` value only exists if
its own field and token validators passed), then runs
`Config.validate_catalog`.  Errors are modelled as the first failing
validator's message. -/

/-- The `parser` literal enum of `schema.Tool`. -/
def parserEnum : List String :=
  ["hadolint", "trivy", "renovate", "curate", "provenance", "push"]

/-- The tool id pattern `^[a-zA-Z0-9][a-zA-Z0-9._-]*$`. -/
def idPatternOk (s : String) : Bool :=
  match s.data with
  | [] => false
  | c :: rest => c.isAlphanum && rest.all isTokenChar

/-- Field validation of the declared inputs: destinations must be absolute
container paths; a non-`"default"` source is a pydantic `FilePath` and must
point to an existing file. -/
def validateInputsFields (fs : FS) : List (String × ToolInputs) → Except String Unit
  | [] => Except.ok ()
  | (_, ti) :: rest =>
    if !(strStartsWith ti.destination ("/")) then
      Except.error ("Tool input destination must be an absolute container path.")
    else if ti.source = "default" then validateInputsFields fs rest
    else if strToPath ti.source ∈ fs.files then validateInputsFields fs rest
    else Except.error ("Path does not point to a file: " ++ ti.source)

/-- The per-name checks of `Tool.validate_command_tokens`. -/
def checkTokenNames (inputs : List (String × ToolInputs)) : List String → Except String Unit
  | [] => Except.ok ()
  | n :: ns =>
    if n = "image.reference" then checkTokenNames inputs ns
    else if ("inputs.".data).isPrefixOf n.data then
      if (inputs.lookup (splitFirstDotTail n)).isSome then checkTokenNames inputs ns
      else Except.error ("Command references undefined input token: " ++ n)
    else Except.error ("Unsupported command token: " ++ n)

/-- Embedding of `Tool.validate_command_tokens` over the argv template. -/
def validateCommandTokens (inputs : List (String × ToolInputs)) :
    List String → Except String Unit
  | [] => Except.ok ()
  | part :: rest =>
    let found := findTokens part.data
    if (hasSub dlb part.data || hasSub drb part.data) && found.isEmpty then
      Except.error ("Malformed template token in tool command.")
    else
      match checkTokenNames inputs found with
      | Except.error e => Except.error e
      | Except.ok _ => validateCommandTokens inputs rest

/-- Pydantic validation of one `Tool` value: field constraints, then the
command-token model validator. -/
def validateTool (fs : FS) (t : Tool) : Except String Unit :=
  if !(idPatternOk t.id) then
    Except.error ("Tool id does not match pattern: " ++ t.id)
  else if !(parserEnum.contains t.parser) then
    Except.error ("Tool parser is not a valid parser kind: " ++ t.parser)
  else if t.command.isEmpty then
    Except.error ("Tool command must have at least 1 item.")
  else if !(t.outputs = "/outputs/") then
    Except.error ("Tool outputs must be the literal /outputs/.")
  else
    match validateInputsFields fs t.inputs with
    | Except.error e => Except.error e
    | Except.ok _ => validateCommandTokens t.inputs t.command

/-- Validate each tool of `config.tools` in order (pydantic list field). -/
def validateAllTools (fs : FS) : List Tool → Except String Unit
  | [] => Except.ok ()
  | t :: rest =>
    match validateTool fs t with
    | Except.error e => Except.error e
    | Except.ok _ => validateAllTools fs rest

/-- The tool ids of a catalog, in order. -/
def toolIds (tools : List Tool) : List String := tools.map Tool.id

/-- The cli entries whose target id is not among the tool ids
(`unknown_targets` in `Config.validate_catalog`). -/
def unknownTargets (tools : List Tool) (cli : List (String × String)) :
    List (String × String) :=
  cli.filter (fun p => !((toolIds tools).contains p.2))

/-- Python `", ".join(...)`. -/
def pyJoin (sep : String) : List String → String
  | [] => ""
  | [x] => x
  | x :: y :: t => x ++ sep ++ pyJoin sep (y :: t)

/-- One `command->tool_id` item of the unknown-targets message. -/
def fmtPair (p : String × String) : String := p.1 ++ "->" ++ p.2

/-- Ascending lexicographic order on `(command, tool_id)` pairs, as Python
`sorted` uses on tuples of strings. -/
def pairLe (a b : String × String) : Bool :=
  if a.1 = b.1 then decide (¬ b.2 < a.2) else decide (a.1 < b.1)

/-- Insert into a sorted pair list. -/
def insertPair (x : String × String) : List (String × String) → List (String × String)
  | [] => [x]
  | y :: t => if pairLe x y then x :: y :: t else y :: insertPair x t

/-- Embedding of `sorted(unknown_targets.items())`. -/
def sortPairs : List (String × String) → List (String × String)
  | [] => []
  | x :: t => insertPair x (sortPairs t)

/-- Embedding of `Config.validate_catalog`: duplicate tool ids are rejected
first, then cli entries referencing unknown tool ids. -/
def validateCatalog (tools : List Tool) (cli : List (String × String)) :
    Except String Unit :=
  if ¬ (toolIds tools).Nodup then
    Except.error ("Tool ids must be unique in config.tools.")
  else
    let unknown := unknownTargets tools cli
    if unknown.isEmpty then Except.ok ()
    else
      Except.error ("CLI mappings reference unknown tool ids: "
        ++ pyJoin (", ") ((sortPairs unknown).map fmtPair))

/-! ## Manifest payloads and the runner (library/tools/runner.py)

The YAML payload of a manifest is embedded as `RawManifest`, restricted to
the fields this core consults (`build.context`/`build.file` for the
dockerfile input, and `config`); reading and YAML-parsing the file, and
validating the remaining schema sections, are the world's `readManifest`.
The container engine is the world's `runtime` oracle, which may transform
the filesystem (a tool may delete its own output root). -/

/-- Build section fields used for dockerfile-input resolution. -/
structure BuildRaw where
  context : String
  file : String
deriving DecidableEq

/-- A parsed manifest payload (the fields the tool runner consults). -/
structure RawManifest where
  build : BuildRaw
  config : Config
deriving DecidableEq

/-- Captured container run result (`utils/runtime.py`). -/
structure RuntimeResult where
  stdout : String
  stderr : String
  exit_code : Int
deriving DecidableEq

/-- The runner's external collaborators: the manifest file/YAML layer and
the container engine. -/
structure World where
  readManifest : PyPath → Except String RawManifest
  runtime : String → List String → List (String × (String × String)) →
    List (String × String) → FS → RuntimeResult × FS

/-- Normalization of one raw input source in `_normalize_input_sources`:
a relative, non-`"default"` source becomes absolute under the manifest's
directory. -/
def normalizeSource (manifestPath : PyPath) (s : String) : String :=
  if s = "default" then s
  else if strIsAbsolute s then s
  else pathStr (manifestPath.dropLast ++ strToPath s)

/-- Embedding of `runner._normalize_input_sources` over the payload. -/
def normalizeInputSources (manifestPath : PyPath) (m : RawManifest) : RawManifest :=
  { m with config := { m.config with tools := m.config.tools.map (fun t =>
      { t with inputs := t.inputs.map (fun p =>
          (p.1, ⟨normalizeSource manifestPath p.2.source, p.2.destination⟩)) }) } }

/-- The `Manifest.from_dict` validation of the payload: every tool's own
validators, then `Config.validate_catalog`. -/
def manifestValidate (fs : FS) (m : RawManifest) : Except String RawManifest :=
  match validateAllTools fs m.config.tools with
  | Except.error e => Except.error e
  | Except.ok _ =>
    match validateCatalog m.config.tools m.config.cli with
    | Except.error e => Except.error e
    | Except.ok _ => Except.ok m

/-- Embedding of `runner._load_manifest`: read and parse the file, normalize
relative input sources, validate. -/
def loadManifest (world : World) (fs : FS) (path : PyPath) : Except String RawManifest :=
  match world.readManifest path with
  | Except.error e => Except.error e
  | Except.ok payload => manifestValidate fs (normalizeInputSources path payload)

/-- Embedding of `resolve.tool_id`. -/
def resolveToolId (command : String) (cli : List (String × String)) : Except String String :=
  match cli.lookup command with
  | none => Except.error ("Unknown tool command mapping: " ++ command)
  | some tid => Except.ok tid

/-- Embedding of `resolve.tool` (with its duplicate-id defense). -/
def resolveTool (tid : String) (tools : List Tool) : Except String Tool :=
  match tools.filter (fun t => t.id = tid) with
  | [] => Except.error ("Unknown tool id: " ++ tid)
  | [t] => Except.ok t
  | _ => Except.error ("Duplicate tool id found: " ++ tid)

/-- Embedding of `resolve.for_command`. -/
def resolveForCommand (m : RawManifest) (command : String) : Except String Tool :=
  match resolveToolId command m.config.cli with
  | Except.error e => Except.error e
  | Except.ok tid => resolveTool tid m.config.tools

/-! ## Packaged default inputs (library/tools/defaults.py) -/

/-- `DEFAULT_INPUT_REGISTRY`: packaged asset paths under the installed
`library` package directory (`libDir` abstracts `Path(__file__).parent`). -/
def DEFAULT_INPUT_REGISTRY (libDir : PyPath) : List (String × PyPath) :=
  [("hadolint", libDir ++ [".hadolint.yaml"]),
    ("trivy", libDir ++ [".trivy.yaml"]),
    ("renovate", libDir ++ ["renovate.json5"])]

/-- Embedding of `defaults._resolve_manifest_dockerfile`: re-read the
manifest, join a non-absolute `build.file` under
`manifest.parent/build.context`, and require an existing file. -/
def resolveManifestDockerfile (world : World) (fs : FS) (path : PyPath) :
    Except String PyPath :=
  match world.readManifest path with
  | Except.error e => Except.error e
  | Except.ok m =>
    let dockerfile :=
      if strIsAbsolute m.build.file then strToPath m.build.file
      else path.dropLast ++ strToPath m.build.context ++ strToPath m.build.file
    if dockerfile ∈ fs.files then Except.ok dockerfile
    else Except.error ("Dockerfile from manifest does not exist: " ++ pathStr dockerfile)

/-- Embedding of `defaults.input(tool, input_key, manifest)`: reject
undeclared keys; special-case the input named `dockerfile`; otherwise look
the packaged registry up by input name, falling back to the tool's parser
name, and require the registered path to be an existing file. -/
def defaultsInput (world : World) (fs : FS) (libDir : PyPath) (tool : Tool)
    (inputKey : String) (manifest : PyPath) : Except String PyPath :=
  if (tool.inputs.lookup inputKey).isNone then
    Except.error ("Input key not defined for tool \x27" ++ tool.id ++ "\x27: " ++ inputKey)
  else if inputKey = "dockerfile" then resolveManifestDockerfile world fs manifest
  else
    let reg := DEFAULT_INPUT_REGISTRY libDir
    let hit :=
      match reg.lookup inputKey with
      | some p => some p
      | none => reg.lookup tool.parser
    match hit with
    | none =>
      Except.error ("No packaged default input available for parser \x27" ++ tool.parser ++ "\x27")
    | some p =>
      if p ∈ fs.files then Except.ok p
      else Except.error ("Packaged default input not found: " ++ pathStr p)

/-- Embedding of `runner._resolve_input_source`.  For `source == "default"`
the source calls `defaults.input(tool=tool, input_key=input_key)` (runner.py
line 68), omitting the required third parameter `manifest` of
`defaults.input(tool, input_key, manifest)` (defaults.py line 130); Python
raises `TypeError` at that call before any registry lookup can happen, which
is what the error branch embeds.  Any other source is resolved against the
manifest directory and must be an existing file. -/
def resolveInputSource (fs : FS) (manifest : PyPath) (tool : Tool)
    (inputKey : String) (inputConfig : ToolInputs) : Except String PyPath :=
  if inputConfig.source = "default" then
    Except.error
      ("TypeError: input() missing 1 required positional argument: \x27manifest\x27")
  else
    let sourcePath :=
      if strIsAbsolute inputConfig.source then strToPath inputConfig.source
      else manifest.dropLast ++ strToPath inputConfig.source
    if sourcePath ∈ fs.files then Except.ok sourcePath
    else Except.error ("Input source file not found: " ++ pathStr sourcePath)

/-- The fixed container outputs path (`CONTAINER_OUTPUTS_PATH`). -/
def CONTAINER_OUTPUTS_PATH : String := "/outputs"

/-- The host container-engine socket path (`DOCKER_SOCKET_PATH`). -/
def DOCKER_SOCKET_PATH : String := "/var/run/docker.sock"

/-- Python `dict[k] = v` on the volume map: update in place, else append. -/
def pyDictSet (d : List (String × (String × String))) (k : String)
    (v : String × String) : List (String × (String × String)) :=
  if (d.lookup k).isSome then d.map (fun p => if p.1 = k then (k, v) else p)
  else d ++ [(k, v)]

/-- Fold of `_build_volumes` over the declared inputs. -/
def addInputVolumes (fs : FS) (manifest : PyPath) (tool : Tool) :
    List (String × ToolInputs) → List (String × (String × String)) →
    Except String (List (String × (String × String)))
  | [], acc => Except.ok acc
  | (k, cfg) :: rest, acc =>
    match resolveInputSource fs manifest tool k cfg with
    | Except.error e => Except.error e
    | Except.ok src =>
      addInputVolumes fs manifest tool rest (pyDictSet acc (pathStr src) (cfg.destination, "ro"))

/-- Embedding of `runner._build_volumes`: workspace read-write at the fixed
outputs path, each input read-only at its destination, and the socket when
requested. -/
def buildVolumes (fs : FS) (manifest : PyPath) (tool : Tool) (outputDir : PyPath) :
    Except String (List (String × (String × String))) :=
  match addInputVolumes fs manifest tool tool.inputs
      [(pathStr outputDir, (CONTAINER_OUTPUTS_PATH, "rw"))] with
  | Except.error e => Except.error e
  | Except.ok vols =>
    if tool.socket then Except.ok (pyDictSet vols DOCKER_SOCKET_PATH (DOCKER_SOCKET_PATH, "rw"))
    else Except.ok vols

/-! ## The tool runner -/

/-- Execution context (`models.ToolRunContext`). -/
structure ToolRunContext where
  manifest : Option PyPath
  command : String
  image : String
  time : PyDateTime
  tool : Option Tool
  output_root : Option PyPath
deriving DecidableEq

/-- The `ToolRunContext` model validator: a manifest path or an explicit
tool must be present. -/
def contextResolutionValid (ctx : ToolRunContext) : Bool :=
  !(ctx.manifest.isNone && ctx.tool.isNone)

/-- Result payload (`models.ToolRunResult`). -/
structure ToolRunResult where
  tool : String
  output : PyPath
  exit_code : Int
  stdout : String
  stderr : String
deriving DecidableEq

/-- Observable side effects of a run, in order. -/
inductive Effect where
  | mkdirDir (p : PyPath)
  | containerRun (image : String) (command : List String)
deriving DecidableEq

/-- A run's outcome: its result, the final filesystem, and the effects. -/
structure RunOutcome where
  result : Except String ToolRunResult
  fs : FS
  effects : List Effect
deriving DecidableEq

/-- The body of `runner.run` as a function of the four context fields the
source reads (`context.manifest`, `context.command`, `context.image`,
`context.time`): resolve the manifest path (`None` has no `.resolve`, an
`AttributeError`), load and validate the manifest, resolve the command to a
tool, create the workspace under the manifest's parent directory, render
the command, build the volume map, invoke the runtime once, and fail if
the workspace directory is gone afterwards. -/
def runnerBody (world : World) (fs : FS) (manifest0 : Option PyPath)
    (command : String) (image : String) (time : PyDateTime) : RunOutcome :=
  match manifest0 with
  | none =>
    ⟨Except.error
      ("AttributeError: \x27NoneType\x27 object has no attribute \x27resolve\x27"), fs, []⟩
  | some manifestPath =>
    match loadManifest world fs manifestPath with
    | Except.error e => ⟨Except.error e, fs, []⟩
    | Except.ok manifest =>
      match resolveForCommand manifest command with
      | Except.error e => ⟨Except.error e, fs, []⟩
      | Except.ok tool =>
        match wsCreate fs manifestPath.dropLast tool.id time with
        | Except.error e => ⟨Except.error e, fs, []⟩
        | Except.ok (fs1, outputDir) =>
          match renderCommand tool.command tool.inputs image with
          | Except.error e => ⟨Except.error e, fs1, [Effect.mkdirDir outputDir]⟩
          | Except.ok rendered =>
            match buildVolumes fs1 manifestPath tool outputDir with
            | Except.error e => ⟨Except.error e, fs1, [Effect.mkdirDir outputDir]⟩
            | Except.ok volumes =>
              let run2 := world.runtime tool.image rendered volumes tool.env fs1
              if outputDir ∈ run2.2.dirs then
                ⟨Except.ok ⟨tool.id, outputDir, run2.1.exit_code, run2.1.stdout, run2.1.stderr⟩,
                  run2.2, [Effect.mkdirDir outputDir, Effect.containerRun tool.image rendered]⟩
              else
                ⟨Except.error ("Tool output directory not found: " ++ pathStr outputDir),
                  run2.2, [Effect.mkdirDir outputDir, Effect.containerRun tool.image rendered]⟩

/-- Embedding of `runner.run`: the source reads only `context.manifest`,
`context.command`, `context.image` and `context.time`. -/
def runnerRun (world : World) (fs : FS) (ctx : ToolRunContext) : RunOutcome :=
  runnerBody world fs ctx.manifest ctx.command ctx.image ctx.time

/-! ## Concrete scenario: the spec's end-to-end manifest

One tool, id `default-scanner`, whose command reads `{{inputs.trivy}}` and
writes `/outputs/example.json`, with `inputs.trivy.source = "default"` and
cli `scan -> default-scanner`. -/

/-- The end-to-end scenario's tool. -/
def specTool : Tool :=
  { id := "default-scanner"
    parser := "trivy"
    image := "docker.io/library/alpine:3.19"
    command := ["sh", "-c",
      "cat \x7b\x7binputs.trivy\x7d\x7d >/dev/null && printf \x27\x7b\"ok\":true\x7d\x27 > /outputs/example.json"]
    env := []
    inputs := [("trivy", ⟨"default", "/config/trivy.yaml"⟩)]
    socket := false
    outputs := "/outputs/" }

/-- The end-to-end scenario's manifest payload. -/
def specPayload : RawManifest :=
  ⟨⟨".", "Dockerfile"⟩, ⟨"default", "warn", [specTool], [("scan", "default-scanner")]⟩⟩

/-- The manifest path of the scenario. -/
def specManifestPath : PyPath := ["tmp", "proj", "manifest.yaml"]

/-- The collaborators of the scenario: the manifest file parses to the
payload above; the container engine succeeds with exit code 0 and leaves
the filesystem unchanged. -/
def specWorld : World :=
  { readManifest := fun p =>
      if p = specManifestPath then Except.ok specPayload
      else Except.error ("FileNotFoundError")
    runtime := fun _ _ _ _ fs => (⟨"", "", 0⟩, fs) }

/-- The initial filesystem of the scenario. -/
def specFs : FS := ⟨[["tmp"], ["tmp", "proj"]], [["tmp", "proj", "Dockerfile"]]⟩

/-- The scenario's run context. -/
def specCtx : ToolRunContext :=
  ⟨some specManifestPath, "scan", "images.canfar.net/library/example:latest",
    ⟨2026, 2, 18, 20, 0, 0, some 0⟩, none, none⟩

/-- C1 evaluation: the scenario's manifest loads, validates, and maps `scan`
to the tool, and the workspace is allocated — but the run then fails with
the `TypeError` from `_resolve_input_source`'s call
`defaults.input(tool=tool, input_key=input_key)` (which omits the required
`manifest` parameter), so the container runtime is never invoked and no
`ToolRunResult` is produced, contrary to the claim. -/
theorem runner_spec_scenario_type_error :
    loadManifest specWorld specFs specManifestPath = Except.ok specPayload
    ∧ resolveForCommand specPayload ("scan") = Except.ok specTool
    ∧ (runnerRun specWorld specFs specCtx).result
      = Except.error
        ("TypeError: input() missing 1 required positional argument: \x27manifest\x27")
    ∧ (runnerRun specWorld specFs specCtx).effects
      = [Effect.mkdirDir
          ["tmp", "proj", ".library-tool-outputs", "default-scanner", "20260218T200000Z"]] := by
  refine ⟨by decide, by decide, by decide, by decide⟩

/-- A tool declaring an input name absent from the packaged registry, with
parser `trivy` (registry fallback hit). -/
def cfgTool : Tool :=
  { specTool with inputs := [("cfg", ⟨"default", "/c.yaml"⟩)] }

/-- A tool whose input name and parser are both absent from the registry. -/
def curTool : Tool :=
  { specTool with parser := "curate", inputs := [("missing", ⟨"default", "/c.yaml"⟩)] }

/-- The packaged `library` directory of the concrete scenarios. -/
def libDirSpec : PyPath := ["app", "library"]

/-- A filesystem on which the packaged trivy asset exists. -/
def fsWithTrivyAsset : FS := ⟨[], [["app", "library", ".trivy.yaml"]]⟩

/-- C4 evaluation: during a run, resolving a `source == "default"` input
raises `TypeError` (the runner's call to `defaults.input` omits the
required `manifest` argument), so the claimed registry lookup never
happens; `defaults.input` itself, when invoked with all three arguments,
does look up the registry by input name, falls back to the parser name,
and fails either when nothing is registered or when the registered path is
not an existing file. -/
theorem default_input_resolution_contract :
    resolveInputSource specFs specManifestPath specTool ("trivy")
        ⟨"default", "/config/trivy.yaml"⟩
      = Except.error
        ("TypeError: input() missing 1 required positional argument: \x27manifest\x27")
    ∧ defaultsInput specWorld fsWithTrivyAsset libDirSpec specTool ("trivy") specManifestPath
      = Except.ok ["app", "library", ".trivy.yaml"]
    ∧ defaultsInput specWorld fsWithTrivyAsset libDirSpec cfgTool ("cfg") specManifestPath
      = Except.ok ["app", "library", ".trivy.yaml"]
    ∧ defaultsInput specWorld ⟨[], []⟩ libDirSpec curTool ("missing") specManifestPath
      = Except.error ("No packaged default input available for parser \x27curate\x27")
    ∧ defaultsInput specWorld ⟨[], []⟩ libDirSpec specTool ("trivy") specManifestPath
      = Except.error ("Packaged default input not found: /app/library/.trivy.yaml") := by
  refine ⟨by decide, by decide, by decide, by decide, by decide⟩

/-! ## Validation-order lemmas for the catalog guard -/

theorem validateAllTools_ok {fs : FS} {l : List Tool}
    (h : ∀ t ∈ l, validateTool fs t = Except.ok ()) :
    validateAllTools fs l = Except.ok () := by
  induction l with
  | nil => rfl
  | cons t rest ih =>
    unfold validateAllTools
    rw [h t (by simp)]
    exact ih (fun x hx => h x (by simp [hx]))

theorem self_mem_insertPair (x : String × String) (l : List (String × String)) :
    x ∈ insertPair x l := by
  induction l with
  | nil => simp [insertPair]
  | cons y t ih =>
    unfold insertPair
    by_cases hle : pairLe x y = true
    · simp [hle]
    · simp only [Bool.not_eq_true] at hle
      simp [hle, ih]

theorem mem_insertPair_of_mem {x : String × String} {l : List (String × String)}
    (y : String × String) (h : x ∈ l) : x ∈ insertPair y l := by
  induction l with
  | nil => simp at h
  | cons z t ih =>
    unfold insertPair
    by_cases hle : pairLe y z = true
    · simp [hle, h]
    · simp only [Bool.not_eq_true] at hle
      rcases List.mem_cons.mp h with he | hm
      · simp [hle, he]
      · simp [hle, ih hm]

theorem mem_sortPairs {x : String × String} {l : List (String × String)}
    (h : x ∈ l) : x ∈ sortPairs l := by
  induction l with
  | nil => simp at h
  | cons y t ih =>
    unfold sortPairs
    rcases List.mem_cons.mp h with he | hm
    · rw [he]; exact self_mem_insertPair y (sortPairs t)
    · exact mem_insertPair_of_mem y (ih hm)

theorem str_data_append (a b : String) : (a ++ b).data = a.data ++ b.data := rfl

theorem pyJoin_mentions (sep : String) {x : String} {l : List String} (h : x ∈ l) :
    ∃ pre post : List Char, (pyJoin sep l).data = pre ++ x.data ++ post := by
  induction l with
  | nil => simp at h
  | cons a t ih =>
    match t with
    | [] =>
      have : x = a := by simpa using h
      exact ⟨[], [], by simp [pyJoin, this]⟩
    | b :: t2 =>
      rcases List.mem_cons.mp h with he | hm
      · refine ⟨[], (sep ++ pyJoin sep (b :: t2)).data, ?_⟩
        show (a ++ sep ++ pyJoin sep (b :: t2)).data = [] ++ x.data ++ _
        rw [str_data_append, str_data_append, str_data_append, he]
        simp
      · obtain ⟨pre, post, hp⟩ := ih hm
        refine ⟨(a ++ sep).data ++ pre, post, ?_⟩
        show (a ++ sep ++ pyJoin sep (b :: t2)).data = _
        rw [str_data_append, hp]
        simp

/-- C9 counterexample: a manifest whose tools are `[tool-A, tool-A]`
(duplicate id) and whose cli maps `scan` to the absent id `missing-tool`
fails validation with the duplicate-id error — the second half of the
claim promises an error naming `scan->missing-tool`, but that string does
not occur in the message. -/
theorem validate_catalog_dup_shadows_unknown :
    manifestValidate specFs
        ⟨⟨".", "Dockerfile"⟩,
          ⟨"default", "warn", [specTool, specTool], [("scan", "missing-tool")]⟩⟩
      = Except.error ("Tool ids must be unique in config.tools.")
    ∧ hasSub ("scan->missing-tool".data)
        ("Tool ids must be unique in config.tools.").data = false := by
  refine ⟨by decide, by decide⟩

/-- C9 (amended): a manifest with duplicate tool ids fails its load inside
`run` with the "must be unique" error before any workspace is created or
container started (no effects, filesystem untouched); and a manifest whose
tool ids are unique but whose cli references absent tool ids fails
validation with an error naming every offending `command->tool-id` pair. -/
theorem manifest_validation_guard :
    (∀ (world : World) (fs : FS) (ctx : ToolRunContext) (p : PyPath)
        (payload : RawManifest),
      ctx.manifest = some p →
      world.readManifest p = Except.ok payload →
      (∀ t ∈ (normalizeInputSources p payload).config.tools,
        validateTool fs t = Except.ok ()) →
      ¬ (toolIds (normalizeInputSources p payload).config.tools).Nodup →
      (runnerRun world fs ctx).result
        = Except.error ("Tool ids must be unique in config.tools.")
      ∧ mentions ("must be unique") ("Tool ids must be unique in config.tools.")
      ∧ (runnerRun world fs ctx).effects = []
      ∧ (runnerRun world fs ctx).fs = fs)
    ∧ (∀ (fs : FS) (b : BuildRaw) (policy conflicts : String) (tools : List Tool)
        (cli : List (String × String)),
      (∀ t ∈ tools, validateTool fs t = Except.ok ()) →
      (toolIds tools).Nodup →
      unknownTargets tools cli ≠ [] →
      ∃ msg : String,
        manifestValidate fs ⟨b, ⟨policy, conflicts, tools, cli⟩⟩ = Except.error msg
        ∧ ∀ pr ∈ unknownTargets tools cli, mentions (fmtPair pr) msg) := by
  constructor
  · intro world fs ctx p payload hm hr hvalid hdup
    have h1 : manifestValidate fs (normalizeInputSources p payload)
        = Except.error ("Tool ids must be unique in config.tools.") := by
      unfold manifestValidate
      rw [validateAllTools_ok hvalid]
      unfold validateCatalog
      rw [if_pos hdup]
    have hload : loadManifest world fs p
        = Except.error ("Tool ids must be unique in config.tools.") := by
      unfold loadManifest
      rw [hr]
      exact h1
    have hrun : runnerRun world fs ctx
        = ⟨Except.error ("Tool ids must be unique in config.tools."), fs, []⟩ := by
      unfold runnerRun runnerBody
      rw [hm]
      simp only [hload]
    refine ⟨by rw [hrun], ⟨"Tool ids ".data, " in config.tools.".data, rfl⟩,
      by rw [hrun], by rw [hrun]⟩
  · intro fs b policy conflicts tools cli hvalid hnodup hunknown
    refine ⟨"CLI mappings reference unknown tool ids: "
      ++ pyJoin (", ") ((sortPairs (unknownTargets tools cli)).map fmtPair), ?_, ?_⟩
    · unfold manifestValidate
      rw [validateAllTools_ok hvalid]
      unfold validateCatalog
      rw [if_neg (by simpa using hnodup)]
      have : (unknownTargets tools cli).isEmpty = false := by
        cases hx : unknownTargets tools cli <;> simp [hx] at hunknown ⊢
      simp only [this]
      rfl
    · intro pr hpr
      have hmem : fmtPair pr ∈ (sortPairs (unknownTargets tools cli)).map fmtPair :=
        List.mem_map.mpr ⟨pr, mem_sortPairs hpr, rfl⟩
      obtain ⟨pre, post, hp⟩ := pyJoin_mentions (", ") hmem
      exact ⟨("CLI mappings reference unknown tool ids: ").data ++ pre, post,
        by rw [str_data_append, hp]; simp⟩

/-- Closed instance of the amended C9 theorem: the duplicate-id manifest
aborts the run with no effects, and the unknown-target manifest's
validation error names `scan->missing-tool`. -/
theorem manifest_validation_guard_witness :
    ((runnerRun
        { readManifest := fun p =>
            if p = specManifestPath then
              Except.ok ⟨⟨".", "Dockerfile"⟩,
                ⟨"default", "warn", [specTool, specTool], [("scan", "default-scanner")]⟩⟩
            else Except.error ("FileNotFoundError")
          runtime := fun _ _ _ _ fs => (⟨"", "", 0⟩, fs) }
        specFs specCtx).result
      = Except.error ("Tool ids must be unique in config.tools.")
      ∧ mentions ("must be unique") ("Tool ids must be unique in config.tools.")
      ∧ (runnerRun
        { readManifest := fun p =>
            if p = specManifestPath then
              Except.ok ⟨⟨".", "Dockerfile"⟩,
                ⟨"default", "warn", [specTool, specTool], [("scan", "default-scanner")]⟩⟩
            else Except.error ("FileNotFoundError")
          runtime := fun _ _ _ _ fs => (⟨"", "", 0⟩, fs) }
        specFs specCtx).effects = []
      ∧ (runnerRun
        { readManifest := fun p =>
            if p = specManifestPath then
              Except.ok ⟨⟨".", "Dockerfile"⟩,
                ⟨"default", "warn", [specTool, specTool], [("scan", "default-scanner")]⟩⟩
            else Except.error ("FileNotFoundError")
          runtime := fun _ _ _ _ fs => (⟨"", "", 0⟩, fs) }
        specFs specCtx).fs = specFs)
    ∧ (∃ msg : String,
      manifestValidate specFs
          ⟨⟨".", "Dockerfile"⟩,
            ⟨"default", "warn", [specTool], [("scan", "missing-tool")]⟩⟩
        = Except.error msg
      ∧ ∀ pr ∈ unknownTargets [specTool] [("scan", "missing-tool")],
          mentions (fmtPair pr) msg) :=
  ⟨manifest_validation_guard.1
      { readManifest := fun p =>
          if p = specManifestPath then
            Except.ok ⟨⟨".", "Dockerfile"⟩,
              ⟨"default", "warn", [specTool, specTool], [("scan", "default-scanner")]⟩⟩
          else Except.error ("FileNotFoundError")
        runtime := fun _ _ _ _ fs => (⟨"", "", 0⟩, fs) }
      specFs specCtx specManifestPath
      ⟨⟨".", "Dockerfile"⟩,
        ⟨"default", "warn", [specTool, specTool], [("scan", "default-scanner")]⟩⟩
      rfl rfl (by decide) (by decide),
    manifest_validation_guard.2 specFs ⟨".", "Dockerfile"⟩ ("default") ("warn")
      [specTool] [("scan", "missing-tool")] (by decide) (by decide) (by decide)⟩

/-- C10: `run` reads only `context.manifest`, `context.command`,
`context.image` and `context.time` — two contexts agreeing on those four
fields produce identical outcomes whatever their `tool` or `output_root`;
and a context with `manifest = None` plus an explicit tool, which the
`ToolRunContext` validator accepts, makes `run` fail instead of running
the explicit tool. -/
theorem runner_ignores_tool_and_output_root :
    (∀ (world : World) (fs : FS) (c1 c2 : ToolRunContext),
      c1.manifest = c2.manifest → c1.command = c2.command →
      c1.image = c2.image → c1.time = c2.time →
      runnerRun world fs c1 = runnerRun world fs c2)
    ∧ (∀ (ctx : ToolRunContext) (world : World) (fs : FS) (t : Tool),
      ctx.manifest = none → ctx.tool = some t →
      contextResolutionValid ctx = true
      ∧ (runnerRun world fs ctx).result
        = Except.error
          ("AttributeError: \x27NoneType\x27 object has no attribute \x27resolve\x27")) := by
  constructor
  · intro world fs c1 c2 h1 h2 h3 h4
    unfold runnerRun
    rw [h1, h2, h3, h4]
  · intro ctx world fs t hm ht
    constructor
    · unfold contextResolutionValid
      rw [hm, ht]
      rfl
    · unfold runnerRun
      rw [hm]
      rfl

/-- Closed instance of the C10 theorem: the scenario context with and
without an explicit tool / output root behaves identically, and a
manifest-less context passes the validator yet fails in `run`. -/
theorem runner_ignores_tool_and_output_root_witness :
    runnerRun specWorld specFs
        { specCtx with tool := some specTool, output_root := some ["alt"] }
      = runnerRun specWorld specFs specCtx
    ∧ contextResolutionValid
        ⟨none, "scan", "img", ⟨2026, 1, 1, 0, 0, 0, none⟩, some specTool, none⟩ = true
    ∧ (runnerRun specWorld specFs
        ⟨none, "scan", "img", ⟨2026, 1, 1, 0, 0, 0, none⟩, some specTool, none⟩).result
      = Except.error
        ("AttributeError: \x27NoneType\x27 object has no attribute \x27resolve\x27") :=
  ⟨runner_ignores_tool_and_output_root.1 specWorld specFs
      { specCtx with tool := some specTool, output_root := some ["alt"] } specCtx
      rfl rfl rfl rfl,
    (runner_ignores_tool_and_output_root.2
      ⟨none, "scan", "img", ⟨2026, 1, 1, 0, 0, 0, none⟩, some specTool, none⟩
      specWorld specFs specTool rfl rfl).1,
    (runner_ignores_tool_and_output_root.2
      ⟨none, "scan", "img", ⟨2026, 1, 1, 0, 0, 0, none⟩, some specTool, none⟩
      specWorld specFs specTool rfl rfl).2⟩

end LibraryTools
